import Mathlib

/-!
Verification development for the hydropowerlib core: the parameter
estimator (`estimate.py`) and the power-output calculator
(`power_output.py`), shallowly embedded over `ℚ`.

Python `None`-able floats become `Option ℚ`; a Python exception becomes
the `error` branch of an `Except` value.  Because the estimator mutates
the plant record in place, each estimation step takes the current record
and returns either the updated record or an error paired with the record
as it stood when the exception was raised.
-/

/-- Exceptions the embedded pipeline can raise.
`dataInsufficient` models `RuntimeError(f'The input data is not
sufficient for plant {hpp.name}')` and carries the plant name;
`typeError` models Python `TypeError` from arithmetic or comparison on
`None`; `assertionError` models a failing `assert`; `indexError` models
indexing an empty pandas index. -/
inductive Err where
  | dataInsufficient (plant : String)
  | typeError
  | assertionError
  | indexError
deriving DecidableEq, Repr

/-- The `HydropowerPlant` record (`hydropower_plant.py`, `__init__`):
optional floats are `Option ℚ`, `turb_params` is the resolved
`(a1, a2, a3)` coefficient row. -/
structure HydropowerPlant where
  name : String
  P_n : Option ℚ := none
  dV_n : Option ℚ := none
  h_n : Option ℚ := none
  dV_res : Option ℚ := none
  turb_type : Option String := none
  turb_num : ℕ := 1
  eta_g_n : Option ℚ := none
  turb_params : Option (ℚ × ℚ × ℚ) := none
deriving DecidableEq, Repr

/-- One sample of a historical flow series: the DateTime index is kept
as (calendar year, day of year), which is what the estimator consumes
(`dayofyear` grouping and a 10-calendar-year cutoff). -/
structure HistSample where
  year : ℤ
  doy : ℕ
  dV : ℚ
deriving DecidableEq, Repr

/-- A historical flow series (`dV_hist`), samples in increasing date order. -/
abbrev Hist := List HistSample

/-- A region of the turbine classification table (`turbines.geojson`):
an identifier and its point-in-polygon containment test in the
(dV_n, h_n) plane.  The geometry engine is an external collaborator, so
containment is kept as an abstract boolean test. -/
structure TurbRegion where
  id : String
  containsPt : ℚ × ℚ → Bool

/-- The turbine classification table, in its native (file) order. -/
abbrev TurbTable := List TurbRegion

/-- `can_estimate` (estimate.py lines 44-58):
`(h_n and P_n) or ((h_n or P_n) and (dV_hist or dV_n))`. -/
def can_estimate (hpp : HydropowerPlant) (dV_hist : Option Hist) : Bool :=
  (hpp.h_n.isSome && hpp.P_n.isSome) ||
    ((hpp.h_n.isSome || hpp.P_n.isSome) && (dV_hist.isSome || hpp.dV_n.isSome))

/-- Lexicographic order on (year, day-of-year) dates. -/
def dateLe (a b : ℤ × ℕ) : Bool :=
  decide (a.1 < b.1 ∨ (a.1 = b.1 ∧ a.2 ≤ b.2))

/-- Arithmetic mean of a list, as used by pandas `.mean()`. -/
def listMean (xs : List ℚ) : ℚ := xs.sum / xs.length

/-- pandas `Series.quantile(q)` with the default linear interpolation:
sort ascending, take position `q * (n - 1)`, interpolate between the two
neighbouring order statistics. -/
def quantileLinear (q : ℚ) (xs : List ℚ) : ℚ :=
  match List.insertionSort (· ≤ ·) xs with
  | [] => 0
  | a :: t =>
    let n : ℕ := (a :: t).length
    let p : ℚ := q * ((n : ℚ) - 1)
    let i : ℕ := p.floor.toNat
    let lo := (a :: t).getD i 0
    let hi := (a :: t).getD (i + 1) lo
    lo + (p - (i : ℚ)) * (hi - lo)

/-- `dV_hist.groupby(dV_hist.index.dayofyear).mean()` (estimate.py line
83): the mean flow for each day-of-year present in the series.  Key
order is irrelevant downstream because the quantile sorts its input. -/
def dayofyearMeans (h : List HistSample) : List ℚ :=
  ((h.map (fun s => s.doy)).dedup).map
    (fun d => listMean ((h.filter (fun s => s.doy == d)).map (fun s => s.dV)))

/-- estimate.py lines 79-86: clip the history to the most recent 10
years (`max(index[0], index[-1] - DateOffset(years=10))`, inclusive
slice), build the mean annual profile, take its 0.05 quantile. -/
def dV_347 (h : Hist) : ℚ :=
  match h.head?, h.getLast? with
  | some f, some l =>
    let cut : ℤ × ℕ := (l.year - 10, l.doy)
    let start := if dateLe (f.year, f.doy) cut then cut else (f.year, f.doy)
    let recent := h.filter (fun s => dateLe start (s.year, s.doy))
    quantileLinear (5/100) (dayofyearMeans recent)
  | _, _ => 0

/-- estimate.py line 91: `0.05 + (dV_347 - 0.06) * 8 / 10`. -/
def seg_0_06_to_0_16 (q : ℚ) : ℚ := 5/100 + (q - 6/100) * 8 / 10

/-- estimate.py line 93: `0.130 + (dV_347 - 0.16) * 4.4 / 10`. -/
def seg_0_16_to_0_5 (q : ℚ) : ℚ := 130/1000 + (q - 16/100) * (44/10) / 10

/-- estimate.py line 95: `0.28 + (dV_347 - 0.5) * 31 / 100`. -/
def seg_0_5_to_2_5 (q : ℚ) : ℚ := 28/100 + (q - 5/10) * 31 / 100

/-- estimate.py line 97: `0.9 + (dV_347 - 2.5) * 21.3 / 100`. -/
def seg_2_5_to_10 (q : ℚ) : ℚ := 9/10 + (q - 25/10) * (213/10) / 100

/-- estimate.py line 99: `2.5 + (dV_347 - 10) * 150 / 1000`. -/
def seg_10_to_60 (q : ℚ) : ℚ := 25/10 + (q - 10) * 150 / 1000

/-- The piecewise residual-flow schedule, estimate.py lines 88-101:
maps the 0.05 quantile `dV_347` of the mean annual profile to `dV_res`. -/
def dV_res_schedule (q : ℚ) : ℚ :=
  if q ≤ 6/100 then 5/100
  else if q ≤ 16/100 then seg_0_06_to_0_16 q
  else if q ≤ 5/10 then seg_0_16_to_0_5 q
  else if q ≤ 25/10 then seg_0_5_to_2_5 q
  else if q ≤ 10 then seg_2_5_to_10 q
  else if q ≤ 60 then seg_10_to_60 q
  else 10

/-- `dV_res_from_dV_hist` (estimate.py lines 60-103).  With no history
the function executes `return 0` WITHOUT assigning `hpp.dV_res` (line
75-76), so the record comes back unchanged; the returned number is the
second component, which the caller in `missing_parameters` discards.
On an empty history, `dV_hist.index[0]` raises. -/
def dV_res_from_dV_hist (hpp : HydropowerPlant) (dV_hist : Option Hist) :
    Except (Err × HydropowerPlant) (HydropowerPlant × ℚ) :=
  match dV_hist with
  | none => .ok (hpp, 0)
  | some h =>
    if h.isEmpty then .error (.indexError, hpp)
    else
      let r := dV_res_schedule (dV_347 h)
      .ok ({ hpp with dV_res := some r }, r)

/-- `dV_n_from_dV_hist` (estimate.py lines 105-120):
`hpp.dV_n = (dV_hist - hpp.dV_res).quantile(0.8)`.  If `dV_hist` is
`None`, `None - hpp.dV_res` raises `TypeError`; if `hpp.dV_res` is
`None`, `series - None` raises `TypeError`. -/
def dV_n_from_dV_hist (hpp : HydropowerPlant) (dV_hist : Option Hist) :
    Except (Err × HydropowerPlant) HydropowerPlant :=
  match dV_hist with
  | none => .error (.typeError, hpp)
  | some h =>
    match hpp.dV_res with
    | none => .error (.typeError, hpp)
    | some r =>
      .ok { hpp with dV_n := some (quantileLinear (8/10) (h.map (fun s => s.dV - r))) }

/-- `P_n_or_h_n_from_characteristic_equation_at_nominal_load`
(estimate.py lines 122-140).  The `assert` on line 132 demands
`(h_n is not None or P_n is not None) and dV_n is None`; when it passes
and a branch is then taken, the formula multiplies or divides by
`hpp.dV_n` — which the assert just forced to be `None` — so the
arithmetic raises `TypeError`.  Only when both `h_n` and `P_n` are
already known does the function return normally (as a no-op). -/
def P_n_or_h_n_from_characteristic_equation_at_nominal_load (hpp : HydropowerPlant) :
    Except (Err × HydropowerPlant) HydropowerPlant :=
  if ¬ ((hpp.h_n.isSome ∨ hpp.P_n.isSome) ∧ hpp.dV_n = none) then
    .error (.assertionError, hpp)
  else if hpp.h_n = none then .error (.typeError, hpp)
  else if hpp.P_n = none then .error (.typeError, hpp)
  else .ok hpp

/-- The generator-efficiency schedule, estimate.py lines 152-161, in
percent. -/
def eta_g_sched (P_n : ℚ) : ℚ :=
  if P_n < 1000 then 80
  else if P_n < 5000 then 80 + (P_n - 1000) / 1000 * 5 / 4
  else if P_n < 20000 then 85 + (P_n - 5000) / 1000 * 5 / 15
  else if P_n < 100000 then 90 + (P_n - 20000) / 1000 * 5 / 80
  else 95

/-- `eta_g_n_from_P_n` (estimate.py lines 142-165): stores the percent
schedule value divided by 100.  If `P_n` is `None`, the comparison
`P_n < 1000` raises `TypeError` (Python 3). -/
def eta_g_n_from_P_n (hpp : HydropowerPlant) :
    Except (Err × HydropowerPlant) HydropowerPlant :=
  match hpp.P_n with
  | none => .error (.typeError, hpp)
  | some p => .ok { hpp with eta_g_n := some (eta_g_sched p / 100) }

/-- `turb_type_from_phase_diagram` (estimate.py lines 167-213):
`turbines.loc[turbines.contains(Point(hpp.dV_n, hpp.h_n))]` keeps the
table's native order, so the assigned type is the first containing
region's id; with no containing region the sentinel `"dummy"` is
assigned and no error is raised.  Building the point from a `None`
coordinate would raise, modelled as `typeError`. -/
def turb_type_from_phase_diagram (hpp : HydropowerPlant) (tbl : TurbTable) :
    Except (Err × HydropowerPlant) HydropowerPlant :=
  match hpp.dV_n, hpp.h_n with
  | some q, some h =>
    match tbl.find? (fun e => e.containsPt (q, h)) with
    | none => .ok { hpp with turb_type := some "dummy" }
    | some e => .ok { hpp with turb_type := some e.id }
  | _, _ => .error (.typeError, hpp)

/-- `missing_parameters` (estimate.py lines 18-42).  The guard on line
27 is `hpp.P_n is None != hpp.h_n is None`, which Python's comparison
chaining parses as
`(P_n is None) and (None != h_n) and (h_n is None)` — the last two
conjuncts are contradictory, so the branch is unsatisfiable; it is
embedded exactly as chained.  The classification table stands in for
the geojson file argument. -/
def missing_parameters (hpp : HydropowerPlant) (dV_hist : Option Hist)
    (tbl : TurbTable) : Except (Err × HydropowerPlant) HydropowerPlant :=
  if can_estimate hpp dV_hist then do
    let h1 ← if hpp.dV_res = none
      then (dV_res_from_dV_hist hpp dV_hist).map Prod.fst else .ok hpp
    let h2 ← if h1.dV_n = none then dV_n_from_dV_hist h1 dV_hist else .ok h1
    let h3 ← if h2.P_n = none ∧ h2.h_n ≠ none ∧ h2.h_n = none
      then P_n_or_h_n_from_characteristic_equation_at_nominal_load h2 else .ok h2
    let h4 ← if h3.turb_type = none then turb_type_from_phase_diagram h3 tbl
      else .ok h3
    eta_g_n_from_P_n h4
  else .error (.dataInsufficient hpp.name, hpp)

/-- `np.interp(dV_pu, [0.1, 0.25, 0.5], [0.85, 0.95, 1.], left=0.85,
right=1.)` (power_output.py line 37): 1-D linear interpolation with
clamping outside the control points. -/
def interp_gen_curve (x : ℚ) : ℚ :=
  if x < 1/10 then 85/100
  else if x < 25/100 then 85/100 + (x - 1/10) * ((95/100 - 85/100) / (25/100 - 1/10))
  else if x < 5/10 then 95/100 + (x - 25/100) * ((1 - 95/100) / (5/10 - 25/100))
  else 1

/-- `eta_g_eff` (power_output.py lines 17-37), pointwise on one
per-unit load value: the interpolated part-load curve times the nominal
generator efficiency. -/
def eta_g_eff (dV_pu : ℚ) (eta_g_n : ℚ) : ℚ := interp_gen_curve dV_pu * eta_g_n

/-- One sample of `characteristic_equation` (power_output.py lines
81-89), on resolved scalars: clip the residual flow, normalise, and
clamp to `P_n` at or above nominal per-unit flow
(`.where(dV_pu < 1., other=hpp.P_n)`). -/
def power_sample (r n e a1 a2 a3 h p : ℚ) (f : ℚ) : ℚ :=
  let dVe := max (f - r) 0
  let pu := dVe / n
  let eta_t := pu / (a1 + a2 * pu + a3 * pu ^ 2)
  if pu < 1 then eta_t * eta_g_eff pu e * (981/100) * 1000 * dVe * h else p

/-- `characteristic_equation` (power_output.py lines 40-91): pointwise
over the flow series, keeping the index.  The pandas expressions read
`dV_res`, `dV_n`, `eta_g_n`, `turb_params`, `h_n` and `P_n` from the
record; any of them still `None` makes the expression raise (collapsed
to `typeError`, no claim distinguishes the Python exception classes
here).  The final `.rename("feedin_hydropower_plant")` only relabels
the series and is dropped. -/
def characteristic_equation (hpp : HydropowerPlant) (dV : List (ℕ × ℚ)) :
    Except Err (List (ℕ × ℚ)) :=
  match hpp.dV_res, hpp.dV_n, hpp.eta_g_n, hpp.turb_params, hpp.h_n, hpp.P_n with
  | some r, some n, some e, some (a1, a2, a3), some h, some p =>
    .ok (dV.map (fun s => (s.1, power_sample r n e a1 a2 a3 h p s.2)))
  | _, _, _, _, _, _ => .error .typeError

/-- A plant with `P_n`, `dV_n`, `h_n` and `turb_type` known but
`dV_res` unknown, estimated with no history. -/
def plantNoRes : HydropowerPlant :=
  { name := "plant_no_res", P_n := some 1000, dV_n := some 12, h_n := some 4,
    dV_res := none, turb_type := some "Kaplan" }

/-- C1: the spec invariant says that whenever `missing_parameters`
completes without raising, `P_n`, `dV_n`, `h_n`, `dV_res`, `turb_type`
and `eta_g_n` are all non-null.  The code violates it: on `plantNoRes`
with no history the run completes (returning `ok`), yet `dV_res` is
still null, because `dV_res_from_dV_hist` returns 0 without assigning
the field and the caller discards the returned value. -/
theorem C1_invariant_violated_at_failing_input :
    missing_parameters plantNoRes none [] =
      .ok { plantNoRes with eta_g_n := some (80/100) } ∧
    ({ plantNoRes with eta_g_n := some (80/100) } : HydropowerPlant).dV_res = none := by
  constructor
  · simp [missing_parameters, can_estimate, plantNoRes, dV_res_from_dV_hist,
      dV_n_from_dV_hist, turb_type_from_phase_diagram, eta_g_n_from_P_n,
      eta_g_sched, bind, Except.bind, Except.map]
    norm_num
  · rfl

/-- A plant with `dV_res` unknown and everything else known, estimated
with no history: the input of claim C5. -/
def plantC5 : HydropowerPlant :=
  { name := "plant_c5", P_n := some 500, dV_n := some 3, h_n := some 2,
    dV_res := none, turb_type := some "Pelton" }

/-- C5: the claim says a null `dV_res` is set to 0 when no history is
given.  The code's `dV_res_from_dV_hist` merely executes `return 0`
without assigning `hpp.dV_res`, and `missing_parameters` ignores the
return value, so after a completing run `dV_res` is still null — not
`some 0` — contradicting the function's own docstring. -/
theorem C5_dV_res_not_assigned :
    missing_parameters plantC5 none [] =
      .ok { plantC5 with eta_g_n := some (80/100) } ∧
    ({ plantC5 with eta_g_n := some (80/100) } : HydropowerPlant).dV_res ≠ some 0 := by
  constructor
  · simp [missing_parameters, can_estimate, plantC5, dV_res_from_dV_hist,
      dV_n_from_dV_hist, turb_type_from_phase_diagram, eta_g_n_from_P_n,
      eta_g_sched, bind, Except.bind, Except.map]
    norm_num
  · simp [plantC5]

/-- A plant where exactly one of `P_n`, `h_n` is null and `dV_n` is
known: the input of claim C2. -/
def plantXor : HydropowerPlant :=
  { name := "plant_xor", P_n := none, dV_n := some 12, h_n := some (423/100),
    dV_res := some 0, turb_type := some "Kaplan" }

/-- C2: the claim says that with exactly one of `P_n`/`h_n` null and
`dV_n` known, the missing one is derived from the characteristic
equation without error.  On the code, the guard
`hpp.P_n is None != hpp.h_n is None` chains into an unsatisfiable
conjunction, so the derivation is skipped: `P_n` stays null and
`eta_g_n_from_P_n` then raises `TypeError` on `None < 1000`. -/
theorem C2_xor_branch_never_taken :
    plantXor.P_n = none ∧ plantXor.h_n.isSome = true ∧ plantXor.dV_n = some 12 ∧
    missing_parameters plantXor none [] = .error (.typeError, plantXor) := by
  exact ⟨rfl, rfl, rfl, rfl⟩

/-- C3: whenever `can_estimate` is false, `missing_parameters` raises
the data-insufficiency error carrying the plant's name, and the plant
record is exactly the input record — the feasibility check runs before
any estimation mutation. -/
theorem C3_insufficient_raises (hpp : HydropowerPlant) (dV_hist : Option Hist)
    (tbl : TurbTable) (h : can_estimate hpp dV_hist = false) :
    missing_parameters hpp dV_hist tbl = .error (.dataInsufficient hpp.name, hpp) := by
  simp [missing_parameters, h]

/-- A plant with nothing but a name: `can_estimate` is false. -/
def plantEmpty : HydropowerPlant := { name := "plant_empty" }

/-- Witness for C3 at a concrete infeasible plant. -/
theorem C3_witness :
    can_estimate plantEmpty none = false ∧
    missing_parameters plantEmpty none [] =
      .error (.dataInsufficient "plant_empty", plantEmpty) :=
  ⟨rfl, C3_insufficient_raises plantEmpty none [] rfl⟩

/-- A plant with both `h_n` and `P_n` known but `dV_n` unknown: the
input of claim C7. -/
def plantHP : HydropowerPlant :=
  { name := "plant_hp", P_n := some 5000, dV_n := none, h_n := some 3,
    dV_res := some 1 }

/-- C7 counterexample: the claim says that with `h_n` and `P_n` known,
`dV_n` unknown and no history, `missing_parameters` does not raise.  On
the code, feasibility passes but `dV_n_from_dV_hist` is still invoked
and `None - hpp.dV_res` raises `TypeError`. -/
theorem C7_counterexample :
    can_estimate plantHP none = true ∧
    missing_parameters plantHP none [] = .error (.typeError, plantHP) := by
  exact ⟨rfl, rfl⟩

/-- C6 counterexample: the claim asserts that q = 60 yields
`dV_res = 10.15` and that adjacent segments of the schedule agree at
every breakpoint, including 0.5, within floating tolerance.  Both
parts fail: the schedule at q = 60 gives `2.5 + 50 · 0.15 = 10`, not
10.15, and at q = 0.5 the two adjacent segments differ by exactly
1/2500 = 0.0004 — a genuine discontinuity, far beyond any floating
tolerance. -/
theorem C6_counterexample :
    dV_res_schedule 60 = 10 ∧ (10 : ℚ) ≠ 1015/100 ∧
    seg_0_16_to_0_5 (5/10) = 699/2500 ∧ seg_0_5_to_2_5 (5/10) = 7/25 ∧
    dV_res_schedule (5/10) = 699/2500 ∧
    seg_0_5_to_2_5 (5/10) - seg_0_16_to_0_5 (5/10) = 1/2500 := by
  norm_num [seg_0_16_to_0_5, seg_0_5_to_2_5, dV_res_schedule, seg_10_to_60]

/-- C6 (amended): the schedule maps q = 0.06 to 0.05 and q = 0.16 to
0.13, but q = 60 to exactly 10 (not 10.15); adjacent segments agree
exactly at the 0.06, 0.16, 2.5 and 60 breakpoints, but genuinely
differ at 0.5 (by 0.0004) and at 10 (by 0.0025) — built-in
discontinuities, not floating error. -/
theorem C6_amended_schedule :
    dV_res_schedule (6/100) = 5/100 ∧
    dV_res_schedule (16/100) = 13/100 ∧
    dV_res_schedule 60 = 10 ∧
    seg_0_06_to_0_16 (6/100) = 5/100 ∧
    seg_0_16_to_0_5 (16/100) = seg_0_06_to_0_16 (16/100) ∧
    seg_2_5_to_10 (25/10) = seg_0_5_to_2_5 (25/10) ∧
    seg_10_to_60 60 = 10 ∧
    seg_0_5_to_2_5 (5/10) - seg_0_16_to_0_5 (5/10) = 1/2500 ∧
    seg_10_to_60 10 - seg_2_5_to_10 10 = 1/400 := by
  norm_num [dV_res_schedule, seg_0_06_to_0_16, seg_0_16_to_0_5, seg_0_5_to_2_5,
    seg_2_5_to_10, seg_10_to_60]

/-- C7 (amended): with `h_n` and `P_n` known, `dV_n` unknown and no
history, feasibility passes (no `DataInsufficient`), but the code still
calls `dV_n_from_dV_hist`, which raises `TypeError` on `None - dV_res`;
the run aborts with the record unchanged and `dV_n` still unresolved. -/
theorem C7_amended_raises_typeerror (hpp : HydropowerPlant) (tbl : TurbTable)
    (hh : hpp.h_n.isSome = true) (hp : hpp.P_n.isSome = true)
    (hd : hpp.dV_n = none) :
    missing_parameters hpp none tbl = .error (.typeError, hpp) := by
  have hce : can_estimate hpp none = true := by simp [can_estimate, hh, hp]
  by_cases hr : hpp.dV_res = none <;>
    simp [missing_parameters, hce, hr, dV_res_from_dV_hist, dV_n_from_dV_hist, hd,
      bind, Except.bind, Except.map]

/-- Witness for the amended C7 at a concrete plant. -/
theorem C7_witness :
    missing_parameters plantHP none [] = .error (.typeError, plantHP) :=
  C7_amended_raises_typeerror plantHP [] rfl rfl rfl

/-- C8: the generator-efficiency schedule stores `P_n = 500 ↦ 0.80` and
`P_n = 100000 ↦ 0.95`, is monotone non-decreasing over the whole
domain, and the stored value is always the percent schedule divided by
100. -/
theorem C8_generator_efficiency_schedule :
    (∀ hpp : HydropowerPlant, hpp.P_n = some 500 →
      eta_g_n_from_P_n hpp = .ok { hpp with eta_g_n := some (80/100) }) ∧
    (∀ hpp : HydropowerPlant, hpp.P_n = some 100000 →
      eta_g_n_from_P_n hpp = .ok { hpp with eta_g_n := some (95/100) }) ∧
    (∀ x y : ℚ, x ≤ y → eta_g_sched x ≤ eta_g_sched y) ∧
    (∀ (hpp : HydropowerPlant) (p : ℚ), hpp.P_n = some p →
      eta_g_n_from_P_n hpp = .ok { hpp with eta_g_n := some (eta_g_sched p / 100) }) := by
  refine ⟨?_, ?_, ?_, ?_⟩
  · intro hpp hP
    simp [eta_g_n_from_P_n, hP, eta_g_sched]
    norm_num
  · intro hpp hP
    simp [eta_g_n_from_P_n, hP, eta_g_sched]
    norm_num
  · intro x y hxy
    unfold eta_g_sched
    split_ifs <;> linarith
  · intro hpp p hP
    simp [eta_g_n_from_P_n, hP]

/-- A plant whose nominal power is 500 W. -/
def plant500 : HydropowerPlant := { name := "plant_500", P_n := some 500 }

/-- Witness for C8 at `P_n = 500`. -/
theorem C8_witness :
    eta_g_n_from_P_n plant500 = .ok { plant500 with eta_g_n := some (80/100) } :=
  C8_generator_efficiency_schedule.1 plant500 rfl

/-- `List.find?` returns the element at index `i` when it satisfies the
predicate and every earlier element does not. -/
theorem find_first_of_get {α : Type} (p : α → Bool) (l : List α) :
    ∀ (i : ℕ) (hi : i < l.length), p (l.get ⟨i, hi⟩) = true →
      (∀ (j : ℕ) (hj : j < i), p (l.get ⟨j, Nat.lt_trans hj hi⟩) = false) →
      l.find? p = some (l.get ⟨i, hi⟩) := by
  induction l with
  | nil => intro i hi; exact absurd hi (Nat.not_lt_zero i)
  | cons a t ih =>
    intro i hi hp hmin
    cases i with
    | zero => simpa [List.find?_cons_of_pos] using List.find?_cons_of_pos (l := t) hp
    | succ n =>
      have ha : p a = false := hmin 0 (Nat.succ_pos n)
      have ht := ih n (Nat.lt_of_succ_lt_succ hi) hp
        (fun j hj => hmin (j + 1) (Nat.succ_lt_succ hj))
      rw [List.find?_cons_of_neg _ (by simp [ha]), ht]
      rfl

/-- C9: for any classification table and resolvable plant point, the
classifier never raises; with no containing region it assigns the
sentinel `"dummy"`, and with at least one containing region it assigns
the id of the first match in the table's native order. -/
theorem C9_first_match_or_dummy (tbl : TurbTable) (hpp : HydropowerPlant)
    (q h : ℚ) (hq : hpp.dV_n = some q) (hh : hpp.h_n = some h) :
    ((∀ e ∈ tbl, e.containsPt (q, h) = false) →
      turb_type_from_phase_diagram hpp tbl =
        .ok { hpp with turb_type := some "dummy" }) ∧
    (∀ (i : ℕ) (hi : i < tbl.length),
      (tbl.get ⟨i, hi⟩).containsPt (q, h) = true →
      (∀ (j : ℕ) (hj : j < i), (tbl.get ⟨j, Nat.lt_trans hj hi⟩).containsPt (q, h) = false) →
      turb_type_from_phase_diagram hpp tbl =
        .ok { hpp with turb_type := some (tbl.get ⟨i, hi⟩).id }) := by
  constructor
  · intro hnone
    have hf : tbl.find? (fun e => e.containsPt (q, h)) = none :=
      List.find?_eq_none.mpr (by intro e he; simp [hnone e he])
    simp [turb_type_from_phase_diagram, hq, hh, hf]
  · intro i hi hp hmin
    have hf := find_first_of_get (fun e => e.containsPt (q, h)) tbl i hi hp hmin
    simp [turb_type_from_phase_diagram, hq, hh, hf]

/-- A region matching high heads only. -/
def regionHighHead : TurbRegion :=
  { id := "pelton", containsPt := fun pt => decide ((100 : ℚ) < pt.2) }

/-- A region matching any non-negative flow. -/
def regionAnyFlow : TurbRegion :=
  { id := "kaplan", containsPt := fun pt => decide ((0 : ℚ) ≤ pt.1) }

/-- A two-region demonstration table. -/
def tblDemo : TurbTable := [regionHighHead, regionAnyFlow]

/-- A plant whose point lies in the second demo region only. -/
def plantPoint : HydropowerPlant :=
  { name := "plant_point", dV_n := some 12, h_n := some 4 }

/-- Witness for C9: the first containing region (index 1) wins. -/
theorem C9_witness :
    turb_type_from_phase_diagram plantPoint tblDemo =
      .ok { plantPoint with turb_type := some "kaplan" } := by
  have hm := (C9_first_match_or_dummy tblDemo plantPoint 12 4 rfl rfl).2 1
    (by simp [tblDemo])
    (by norm_num [tblDemo, regionAnyFlow])
    (by
      intro j hj
      interval_cases j
      norm_num [tblDemo, regionHighHead])
  simpa [tblDemo, regionAnyFlow] using hm

/-- C4: on a fully-specified plant (nominal flow positive, as any
physical plant), the calculator yields one output per input sample in
the same order with the same timestamps; where the per-unit flow
`max(flow - dV_res, 0) / dV_n` reaches 1 the power is exactly `P_n`,
and below 1 it is `eta_t · eta_g · 9.81 · 1000 · dV_eff · h_n` with
`eta_t = dV_pu / (a1 + a2·dV_pu + a3·dV_pu²)`. -/
theorem C4_pointwise_power (hpp : HydropowerPlant) (dV : List (ℕ × ℚ))
    (r n e a1 a2 a3 h p : ℚ)
    (hr : hpp.dV_res = some r) (hn : hpp.dV_n = some n) (hnpos : 0 < n)
    (he : hpp.eta_g_n = some e) (hab : hpp.turb_params = some (a1, a2, a3))
    (hh : hpp.h_n = some h) (hp : hpp.P_n = some p) :
    ∃ out, characteristic_equation hpp dV = .ok out ∧
      out.map Prod.fst = dV.map Prod.fst ∧
      out.length = dV.length ∧
      ∀ (i : ℕ) (hi : i < dV.length) (ho : i < out.length),
        (1 ≤ max (dV[i].2 - r) 0 / n → out[i].2 = p) ∧
        (max (dV[i].2 - r) 0 / n < 1 →
          out[i].2 =
            (max (dV[i].2 - r) 0 / n /
              (a1 + a2 * (max (dV[i].2 - r) 0 / n) +
                a3 * (max (dV[i].2 - r) 0 / n) ^ 2)) *
            eta_g_eff (max (dV[i].2 - r) 0 / n) e *
            (981/100) * 1000 * max (dV[i].2 - r) 0 * h) := by
  refine ⟨dV.map (fun s => (s.1, power_sample r n e a1 a2 a3 h p s.2)), ?_, ?_, ?_, ?_⟩
  · simp [characteristic_equation, hr, hn, he, hab, hh, hp]
  · simp [List.map_map]
  · simp
  · intro i hi ho
    constructor
    · intro hge
      have hnl : ¬ (max (dV[i].2 - r) 0 / n < 1) := not_lt.mpr hge
      simp [List.getElem_map, power_sample, hnl]
    · intro hlt
      simp [List.getElem_map, power_sample, hlt]

/-- A fully-specified demonstration plant: `dV_res = 0`, `dV_n = 12`,
`h_n = 4.23`, `P_n = 5000`, `eta_g_n = 0.9`, coefficients
`(0.5, 0.5, 0)`. -/
def plantFull : HydropowerPlant :=
  { name := "plant_full", P_n := some 5000, dV_n := some 12,
    h_n := some (423/100), dV_res := some 0, turb_type := some "Kaplan",
    eta_g_n := some (9/10), turb_params := some (1/2, 1/2, 0) }

/-- The demonstration operating flow series `[6, 12, 20]`. -/
def dVdemo : List (ℕ × ℚ) := [(0, 6), (1, 12), (2, 20)]

/-- Witness for C4 on the demonstration plant and series. -/
theorem C4_witness :
    ∃ out, characteristic_equation plantFull dVdemo = .ok out ∧
      out.map Prod.fst = dVdemo.map Prod.fst ∧
      out.length = dVdemo.length ∧
      ∀ (i : ℕ) (hi : i < dVdemo.length) (ho : i < out.length),
        (1 ≤ max (dVdemo[i].2 - 0) 0 / 12 → out[i].2 = 5000) ∧
        (max (dVdemo[i].2 - 0) 0 / 12 < 1 →
          out[i].2 =
            (max (dVdemo[i].2 - 0) 0 / 12 /
              (1/2 + 1/2 * (max (dVdemo[i].2 - 0) 0 / 12) +
                0 * (max (dVdemo[i].2 - 0) 0 / 12) ^ 2)) *
            eta_g_eff (max (dVdemo[i].2 - 0) 0 / 12) (9/10) *
            (981/100) * 1000 * max (dVdemo[i].2 - 0) 0 * (423/100)) :=
  C4_pointwise_power plantFull dVdemo 0 12 (9/10) (1/2) (1/2) 0 (423/100) 5000
    rfl rfl (by norm_num) rfl rfl rfl rfl

/-- C10: on a fully-specified plant with `a1 ≠ 0` and positive nominal
flow, every sample whose flow does not exceed the residual flow
(including all non-positive flows when `dV_res = 0`) produces exactly
0 W: the effective flow clips to 0 and the turbine efficiency `0 / a1`
vanishes. -/
theorem C10_zero_power_below_residual (hpp : HydropowerPlant) (dV : List (ℕ × ℚ))
    (r n e a1 a2 a3 h p : ℚ)
    (hr : hpp.dV_res = some r) (hn : hpp.dV_n = some n) (hnpos : 0 < n)
    (he : hpp.eta_g_n = some e) (hab : hpp.turb_params = some (a1, a2, a3))
    (hh : hpp.h_n = some h) (hp : hpp.P_n = some p) (ha1 : a1 ≠ 0) :
    ∃ out, characteristic_equation hpp dV = .ok out ∧
      ∀ (i : ℕ) (hi : i < dV.length) (ho : i < out.length),
        dV[i].2 ≤ r → out[i].2 = 0 := by
  refine ⟨dV.map (fun s => (s.1, power_sample r n e a1 a2 a3 h p s.2)), ?_, ?_⟩
  · simp [characteristic_equation, hr, hn, he, hab, hh, hp]
  · intro i hi ho hle
    have hmax : max (dV[i].2 - r) 0 = 0 := max_eq_right (by linarith)
    simp [List.getElem_map, power_sample, hmax]

/-- A flow series entirely at or below the residual flow (here 0). -/
def dVlow : List (ℕ × ℚ) := [(0, -5), (1, 0)]

/-- Witness for C10 on the demonstration plant and a non-positive
flow series. -/
theorem C10_witness :
    ∃ out, characteristic_equation plantFull dVlow = .ok out ∧
      ∀ (i : ℕ) (hi : i < dVlow.length) (ho : i < out.length),
        dVlow[i].2 ≤ 0 → out[i].2 = 0 :=
  C10_zero_power_below_residual plantFull dVlow 0 12 (9/10) (1/2) (1/2) 0 (423/100) 5000
    rfl rfl (by norm_num) rfl rfl rfl rfl (by norm_num)
